import Mathlib

/-!
# Verification of the geofa_sync repository

Shallow embedding of the sync/database packages of the `geofa_sync`
repository and proofs of the frozen specification claims.

Modelling conventions:
* A Python `datetime` becomes `PyDT`: the six calendar fields plus a
  microsecond field and an optional UTC-offset (in minutes); `tz = none`
  models a timezone-naive value, `tz = some 0` a UTC-aware one.
* A pandas row (Record) becomes an association list from column name to
  `Value`; a GeoDataFrame (Layer) is a column list plus a record list; a
  GeoPackage container (store) is an association list from layer name to
  `Layer`.
* A Python function that can raise becomes a Lean function into
  `Except String α`; `Except.error` models a raised exception carrying the
  message, `Except.ok` a normal return.
* `uuid.uuid4()` draws are modelled by passing the generated string (or a
  supply of strings) explicitly as an argument.
-/

/-- Embeds `datetime.datetime`: the six calendar fields, the microsecond,
and the timezone as an optional UTC offset in minutes (`none` = naive). -/
structure PyDT where
  year : Nat
  month : Nat
  day : Nat
  hour : Nat
  minute : Nat
  second : Nat
  microsecond : Nat := 0
  tz : Option Int := none
deriving DecidableEq, Repr

/-- Embeds `shapely` geometries as far as the code inspects them: the
`geom_type` string together with an opaque payload distinguishing
geometries of the same type. -/
structure Geom where
  geom_type : String
  payload : Nat := 0
deriving DecidableEq, Repr

/-- An attribute value of a record: null, string, integer, timestamp or
geometry, matching the scalar kinds the code reads and writes. -/
inductive Value where
  | vNull : Value
  | vStr : String → Value
  | vInt : Int → Value
  | vTime : PyDT → Value
  | vGeom : Geom → Value
deriving DecidableEq, Repr

/-- A linear key for the calendar fields of a datetime, in microseconds,
ignoring the timezone.  For valid calendar values the key is strictly
monotone in the lexicographic field order, so equal-offset datetimes
compare by this key exactly as Python compares them. -/
def PyDT.rawKey (d : PyDT) : Nat :=
  (((((d.year * 13 + d.month) * 32 + d.day) * 24 + d.hour) * 60 + d.minute)
      * 60 + d.second) * 1000000 + d.microsecond

/-- The timeline position of a timezone-aware datetime, in microseconds:
the raw calendar key shifted by the UTC offset.  Only meaningful when
`tz` is `some off`. -/
def PyDT.absKey (d : PyDT) : Int :=
  (d.rawKey : Int) - (match d.tz with
    | some off => off * 60 * 1000000
    | none => 0)

/-- Embeds Python's `<=` on datetimes: defined between two naive or two
aware values, raising `TypeError` when naive and aware are mixed. -/
def pyLe (a b : PyDT) : Except String Bool :=
  match a.tz, b.tz with
  | none, none => Except.ok (decide (a.rawKey ≤ b.rawKey))
  | some _, some _ => Except.ok (decide (a.absKey ≤ b.absKey))
  | _, _ =>
      Except.error "TypeError: cannot compare offset-naive and offset-aware datetimes"

/-- Embeds `make_datetime` (src/sync/vk.py): builds a timezone-aware UTC
datetime from the six calendar fields, microsecond zero. -/
def make_datetime (year : Nat) (month : Nat := 1) (day : Nat := 1)
    (hour : Nat := 0) (minute : Nat := 0) (second : Nat := 0) : PyDT :=
  { year := year, month := month, day := day, hour := hour, minute := minute,
    second := second, microsecond := 0, tz := some 0 }

/-! ## Records, layers and stores -/

/-- Lookup in an association list (first binding wins). -/
def assocGet (l : List (String × α)) (k : String) : Option α :=
  (l.find? (fun p => p.1 = k)).map (·.2)

/-- Keyed replace-or-append: replaces the value of every binding of an
existing key in place, otherwise appends the new binding at the end.
This is both Python dict assignment and whole-layer overwrite. -/
def assocSet (l : List (String × α)) (k : String) (v : α) : List (String × α) :=
  if l.any (fun p => p.1 = k) then
    l.map (fun p => if p.1 = k then (p.1, v) else p)
  else
    l ++ [(k, v)]

/-- A record (one pandas row): an association list from column name to
value, in column order. -/
abbrev PyRecord := List (String × Value)

/-- Lookup of an attribute in a record, as in a Python dict. -/
def dictGet (r : PyRecord) (k : String) : Option Value :=
  assocGet r k

/-- Python dict assignment `r[k] = v`. -/
def dictSet (r : PyRecord) (k : String) (v : Value) : PyRecord :=
  assocSet r k v

/-- A layer (one GeoDataFrame as stored in a GeoPackage): its column
names and its ordered records.  The positional row index of a record in
`records` is its FID. -/
structure Layer where
  columns : List String
  records : List PyRecord
deriving DecidableEq, Repr

/-- A GeoPackage container: an association list from layer name to
layer. -/
abbrev Store := List (String × Layer)

/-- Embeds `gpd.read_file(path, layer=name)`: returns the named layer or
raises when it is absent. -/
def readLayer (s : Store) (name : String) : Except String Layer :=
  match assocGet s name with
  | some l => Except.ok l
  | none => Except.error ("Error reading layer " ++ name)

/-- Embeds `gdf.to_file(path, layer=name, driver=...)`: wholesale
replacement of the named layer, creating it when absent. -/
def writeLayer (s : Store) (name : String) (l : Layer) : Store :=
  assocSet s name l

/-! ## Source-store reconciler (`VK`, src/sync/vk.py) -/

/-- The three VK layer names hard-coded in `get_objects_by_date`. -/
def allVkLayers : List String :=
  ["GeoFA_5800_fac_pkt", "GeoFA_5801_fac_fl", "GeoFA_5802_fac_li"]

/-- Embeds the bound normalization inside `get_objects_by_date`
(src/sync/vk.py lines 142-161): every given bound is rebuilt by
`make_datetime` from its six calendar fields, hence becomes UTC-aware
with microsecond zero. -/
def normalizeBound (d : PyDT) : PyDT :=
  make_datetime d.year d.month d.day d.hour d.minute d.second

/-- The per-record filter condition of `get_objects_by_date`
(src/sync/vk.py lines 179-187): `oprettet >= start` when no end bound is
given; `oprettet >= start` and `oprettet <= end` and
`cvr_kode == 29189900` when it is.  A record whose `oprettet` value is
not a timestamp raises (as `pd.to_datetime` would). -/
def recordInDateRange (start : PyDT) (endOpt : Option PyDT) (r : PyRecord) :
    Except String Bool :=
  match dictGet r "oprettet" with
  | some (Value.vTime t) =>
      match endOpt with
      | none => pyLe start t
      | some e => do
          let b1 ← pyLe start t
          let b2 ← pyLe t e
          pure (b1 && b2
            && (dictGet r "cvr_kode" = some (Value.vInt 29189900) : Bool))
  | _ => Except.error "could not convert oprettet to datetime"

/-- Filters a list through a fallible predicate, raising as soon as the
predicate raises (as a vectorized pandas comparison raises for the whole
column). -/
def exceptFilter (p : α → Except String Bool) : List α → Except String (List α)
  | [] => Except.ok []
  | a :: as => do
      let b ← p a
      let rest ← exceptFilter p as
      pure (if b then a :: rest else rest)

/-- The per-layer body of `get_objects_by_date`: a layer having an
`oprettet` column contributes its records passing the date filter, a
layer without one is skipped with a warning. -/
def layerDateFilter (start : PyDT) (endOpt : Option PyDT) (l : Layer) :
    Except String (List PyRecord) :=
  if "oprettet" ∈ l.columns then
    exceptFilter (recordInDateRange start endOpt) l.records
  else
    Except.ok []

/-- The layer loop of `get_objects_by_date` (src/sync/vk.py lines
169-208): reads each layer, filters it by the (already normalized)
bounds and concatenates the results. -/
def scanLayers (vk : Store) (startN : PyDT) (endN : Option PyDT) :
    List String → Except String (List PyRecord)
  | [] => Except.ok []
  | n :: ns => do
      let l ← readLayer vk n
      let here ← layerDateFilter startN endN l
      let rest ← scanLayers vk startN endN ns
      pure (here ++ rest)

/-- Embeds `VK.get_objects_by_date` (src/sync/vk.py): normalizes the
bounds with `make_datetime`, scans the chosen layer (or all three VK
layers), filters each by the date condition and concatenates the
results. -/
def get_objects_by_date (vk : Store) (start : PyDT) (endOpt : Option PyDT)
    (layerName : Option String := none) : Except String (List PyRecord) :=
  let layers := match layerName with
    | some n => [n]
    | none => allVkLayers
  scanLayers vk (normalizeBound start) (endOpt.map normalizeBound) layers

/-- Embeds `VK.update_objekt_id` (src/sync/vk.py lines 236-261): reads
the whole layer, raises a `ValueError` when the FID is outside the
layer's index range, otherwise sets `objekt_id` on that one record and
rewrites the whole layer.  `Except.error` models the raised exception
propagating to the caller (the code re-raises after logging). -/
def update_objekt_id (vk : Store) (layer_name : String) (fid : Nat)
    (new_objekt_id : String) : Except String Store := do
  let gdf ← readLayer vk layer_name
  if h : fid < gdf.records.length then
    let r := gdf.records.get ⟨fid, h⟩
    let updated := gdf.records.set fid (dictSet r "objekt_id" (Value.vStr new_objekt_id))
    pure (writeLayer vk layer_name { gdf with records := updated })
  else
    Except.error ("ValueError: FID " ++ toString fid ++ " not found in layer "
      ++ layer_name ++ ". Valid range: 0 to " ++ toString (gdf.records.length - 1))

/-! ## Target-store writer (`GeoFA`, src/sync/geofa.py) -/

/-- Embeds `GeoFA._infer_layer_from_geometry` (src/sync/geofa.py lines
68-88): maps the geometry's `geom_type` string to the target layer name,
raising a `ValueError` naming the type when it is unsupported. -/
def infer_layer_from_geometry (geometry : Geom) : Except String String :=
  let geom_type := geometry.geom_type
  if geom_type = "Point" ∨ geom_type = "MultiPoint" then
    Except.ok "5800_fac_pkt"
  else if geom_type = "Polygon" ∨ geom_type = "MultiPolygon" then
    Except.ok "5801_fac_fl"
  else if geom_type = "LineString" ∨ geom_type = "MultiLineString" then
    Except.ok "5802_fac_li"
  else
    Except.error ("ValueError: Unsupported geometry type: " ++ geom_type)

/-- Embeds the fixed `temanavn_map` dict of `create_object`
(src/sync/geofa.py lines 118-122); `.get` on a missing key yields
`none`. -/
def temanavn_map (temakode : Int) : Option String :=
  if temakode = 5800 then some "t_5800_fac_pkt_t"
  else if temakode = 5801 then some "t_5801_fac_fl_t"
  else if temakode = 5802 then some "t_5802_fac_li_t"
  else none

/-- The new row built by `create_object` (src/sync/geofa.py lines
112-123): every schema column defaulted to null, then `objekt_id`,
`temakode`, `geometry` and `temanavn` assigned by dict update. -/
def newGeofaRow (columns : List String) (new_object_id : String)
    (temakode : Int) (geometry : Geom) : PyRecord :=
  let base : PyRecord := columns.map (fun c => (c, Value.vNull))
  let r1 := dictSet base "objekt_id" (Value.vStr new_object_id)
  let r2 := dictSet r1 "temakode" (Value.vInt temakode)
  let r3 := dictSet r2 "geometry" (Value.vGeom geometry)
  dictSet r3 "temanavn" (match temanavn_map temakode with
    | some n => Value.vStr n
    | none => Value.vNull)

/-- Embeds `GeoFA.create_object` (src/sync/geofa.py lines 90-152): the
generated `uuid.uuid4()` string is passed in as `new_object_id`; the
target layer is inferred from the geometry, read whole, the new row is
appended and the layer rewritten.  Returns the new identifier together
with the updated store. -/
def create_object (geofa : Store) (new_object_id : String) (temakode : Int)
    (geometry : Geom) : Except String (Store × String) := do
  let layer_name ← infer_layer_from_geometry geometry
  let gdf ← readLayer geofa layer_name
  let new_row := newGeofaRow gdf.columns new_object_id temakode geometry
  let updated := { gdf with records := gdf.records ++ [new_row] }
  pure (writeLayer geofa layer_name updated, new_object_id)

/-! ## Sync orchestrator (`DatabaseSync`, src/sync/db_sync.py) -/

/-- Python `str.isspace` for the ASCII whitespace characters
`str.strip()` removes. -/
def pyIsSpace (c : Char) : Bool :=
  c = ' ' || c = '\t' || c = '\n' || c = '\r' || c = '\x0b' || c = '\x0c'

/-- Python `str.strip()`: removes leading and trailing whitespace. -/
def pyStrip (s : String) : String :=
  ⟨((s.data.dropWhile pyIsSpace).reverse.dropWhile pyIsSpace).reverse⟩

/-- The row predicate of `DatabaseSync._filter_objects_without_id`
(src/sync/db_sync.py line 110): `objekt_id` is null, or is a string that
strips to the empty string.  A non-string, non-null value fails both
vectorized tests (`.str.strip()` yields NaN there, and NaN == "" is
false). -/
def needsSyncRow (r : PyRecord) : Bool :=
  match dictGet r "objekt_id" with
  | some Value.vNull => true
  | some (Value.vStr s) => pyStrip s = ""
  | _ => false

/-- Embeds `DatabaseSync._filter_objects_without_id`: keeps the rows
whose `objekt_id` is null or whitespace-only. -/
def filter_objects_without_id (records : List PyRecord) : List PyRecord :=
  records.filter needsSyncRow

/-- Embeds `DatabaseSync._get_layer_name_from_temakode`
(src/sync/db_sync.py lines 85-96). -/
def get_layer_name_from_temakode (temakode : Int) : String :=
  let suffix := if temakode = 5800 then "pkt"
    else if temakode = 5801 then "fl" else "li"
  "GeoFA_" ++ toString temakode ++ "_fac_" ++ suffix

/-- One entry of the orchestrator's `sync_results` list
(src/sync/db_sync.py lines 146-154). -/
structure SyncEntry where
  fid : Nat
  layer_name : String
  new_objekt_id : String
  navn : String
  temakode : Int
deriving DecidableEq, Repr

/-- Embeds the `SyncResult` dataclass (src/sync/db_sync.py). -/
structure SyncResult where
  total_objects : Nat
  already_synced : Nat
  newly_synced : Nat
  errors : Nat
  sync_details : List SyncEntry
deriving DecidableEq, Repr

/-- The `temakode = int(row["temakode"])` extraction in
`_create_objects_in_geofa`; a null or non-integer value raises and the
row is skipped. -/
def rowTemakode (r : PyRecord) : Option Int :=
  match dictGet r "temakode" with
  | some (Value.vInt n) => some n
  | _ => none

/-- The `geometry = row["geometry"]` extraction. -/
def rowGeometry (r : PyRecord) : Option Geom :=
  match dictGet r "geometry" with
  | some (Value.vGeom g) => some g
  | _ => none

/-- The `row.get("navn", "Unknown")` extraction. -/
def rowNavn (r : PyRecord) : String :=
  match dictGet r "navn" with
  | some (Value.vStr s) => s
  | _ => "Unknown"

/-- Embeds `DatabaseSync._create_objects_in_geofa` (src/sync/db_sync.py
lines 112-164): walks the unsynced rows (paired with their DataFrame
index), creates each in GeoFA, collects an entry per success and skips
failures (`continue`).  `uuids` supplies the `uuid.uuid4()` draws, one
consumed per `create_object` call. -/
def create_objects_in_geofa (geofa : Store) (uuids : List String) :
    List (Nat × PyRecord) → Store × List String × List SyncEntry
  | [] => (geofa, uuids, [])
  | (idx, row) :: rest =>
      match rowTemakode row, rowGeometry row with
      | some temakode, some geometry =>
          let layer_name := get_layer_name_from_temakode temakode
          let u := uuids.headD ""
          (match create_object geofa u temakode geometry with
           | Except.ok (geofa1, new_gfa_id) =>
               let (geofa2, us, entries) :=
                 create_objects_in_geofa geofa1 uuids.tail rest
               (geofa2, us,
                 ⟨idx, layer_name, new_gfa_id, rowNavn row, temakode⟩ :: entries)
           | Except.error _ =>
               create_objects_in_geofa geofa uuids.tail rest)
      | _, _ => create_objects_in_geofa geofa uuids rest

/-- Embeds `DatabaseSync._update_vk_with_geofa_ids` (src/sync/db_sync.py
lines 166-204): patches each entry's identifier back into VK, counting
successes and failures independently; a raised exception is caught per
entry. -/
def update_vk_with_geofa_ids (vk : Store) :
    List SyncEntry → Store × Nat × Nat
  | [] => (vk, 0, 0)
  | e :: rest =>
      match update_objekt_id vk e.layer_name e.fid e.new_objekt_id with
      | Except.ok vk1 =>
          let (vk2, s, f) := update_vk_with_geofa_ids vk1 rest
          (vk2, s + 1, f)
      | Except.error _ =>
          let (vk2, s, f) := update_vk_with_geofa_ids vk rest
          (vk2, s, f + 1)

/-- The fetch threshold of `sync_new_objects`: the given date, or the
timezone-naive `datetime(2000, 1, 1)` fallback used to mean "all
objects" (src/sync/db_sync.py lines 244-246). -/
def syncStartDate (since_date : Option PyDT) : PyDT :=
  match since_date with
  | some d => d
  | none => { year := 2000, month := 1, day := 1, hour := 0, minute := 0,
              second := 0 }

/-- Embeds `DatabaseSync.sync_new_objects` (src/sync/db_sync.py lines
206-299): fetch records since the threshold date, return early on an
empty fetch, filter the unsynced subset, return early when it is empty,
otherwise create the objects in GeoFA and patch the new identifiers
back into VK.  Returns the result together with the final states of
both stores. -/
def sync_new_objects (vk geofa : Store) (uuids : List String)
    (since_date : Option PyDT) :
    Except String (SyncResult × Store × Store) := do
  let vk_objects ← get_objects_by_date vk (syncStartDate since_date) none none
  if vk_objects.length = 0 then
    pure (⟨0, 0, 0, 0, []⟩, vk, geofa)
  else
    let needs_sync := vk_objects.enum.filter (fun p => needsSyncRow p.2)
    let already_synced := vk_objects.length - needs_sync.length
    if needs_sync.length = 0 then
      pure (⟨vk_objects.length, already_synced, 0, 0, []⟩, vk, geofa)
    else
      let (geofa1, _, sync_details) := create_objects_in_geofa geofa uuids needs_sync
      let (vk1, success_count, error_count) := update_vk_with_geofa_ids vk sync_details
      pure (⟨vk_objects.length, already_synced, success_count, error_count,
             sync_details⟩, vk1, geofa1)

/-! ## Geodatabase cloner (`GeodatabaseCloner`, src/database/vk_clone/database.py) -/

/-- Embeds `GeodatabaseClonerConfig`/the `GeodatabaseCloner` constructor
arguments. -/
structure ClonerConfig where
  schema_files : List String
  gdb_path : String
  output_path : String
deriving DecidableEq, Repr

/-- The observable actions of a clone run, in order. -/
inductive CloneAction where
  | warnMissingGdb : CloneAction
  | removedDest : String → CloneAction
  | readSchema : String → CloneAction
  | clonedLayer : String → CloneAction
  | errorProcessing : String → CloneAction
  | warnMissingSchema : String → CloneAction
deriving DecidableEq, Repr

/-- The filesystem state a clone run touches: the set of existing paths,
the parsed `name` field of each readable schema file, the layers of the
source geodatabase, and the content of the destination GeoPackage. -/
structure CloneWorld where
  paths : List String
  schemas : List (String × String)
  gdb_layers : List (String × Layer)
  dest : Store
deriving DecidableEq, Repr

/-- Embeds `GeodatabaseCloner._clone_layer` (src/database/vk_clone/
database.py lines 32-58): parse the schema JSON, take the last
dot-separated segment of its `name` as the table name, read that layer
from the geodatabase and write it into the destination; any failure is
caught and printed, leaving the world unchanged. -/
def clone_layer (cfg : ClonerConfig) (w : CloneWorld) (json_schema_path : String) :
    CloneWorld × List CloneAction :=
  match assocGet w.schemas json_schema_path with
  | none => (w, [CloneAction.readSchema json_schema_path,
                 CloneAction.errorProcessing json_schema_path])
  | some name =>
      let table_name := (name.splitOn ".").getLastD name
      match assocGet w.gdb_layers table_name with
      | none => (w, [CloneAction.readSchema json_schema_path,
                     CloneAction.errorProcessing json_schema_path])
      | some gdf =>
          ({ w with
              dest := writeLayer w.dest table_name gdf,
              paths := if cfg.output_path ∈ w.paths then w.paths
                       else w.paths ++ [cfg.output_path] },
           [CloneAction.readSchema json_schema_path,
            CloneAction.clonedLayer table_name])

/-- Embeds `GeodatabaseCloner.run_clone` (src/database/vk_clone/
database.py lines 60-85): if the source geodatabase path does not exist,
warn and return at once; otherwise delete an existing destination, then
process each schema file in turn, skipping missing ones with a
warning. -/
def run_clone (cfg : ClonerConfig) (w : CloneWorld) :
    CloneWorld × List CloneAction :=
  if cfg.gdb_path ∉ w.paths then
    (w, [CloneAction.warnMissingGdb])
  else
    let (w1, tr1) :=
      if cfg.output_path ∈ w.paths then
        ({ w with paths := w.paths.erase cfg.output_path, dest := [] },
         [CloneAction.removedDest cfg.output_path])
      else (w, ([] : List CloneAction))
    cfg.schema_files.foldl
      (fun acc sf =>
        if sf ∈ acc.1.paths then
          let (wb, trb) := clone_layer cfg acc.1 sf
          (wb, acc.2 ++ trb)
        else (acc.1, acc.2 ++ [CloneAction.warnMissingSchema sf]))
      (w1, tr1)

/-! ## Lemmas: association lists -/

theorem assocGet_cons (p : String × α) (l : List (String × α)) (k : String) :
    assocGet (p :: l) k = if p.1 = k then some p.2 else assocGet l k := by
  by_cases h : p.1 = k <;> simp [assocGet, List.find?_cons, h]

theorem assocSet_cons_ne (p : String × α) (l : List (String × α)) (k : String)
    (v : α) (hp : ¬ p.1 = k) :
    assocSet (p :: l) k v = p :: assocSet l k v := by
  simp only [assocSet, List.any_cons, hp, decide_False, Bool.false_or]
  by_cases ha : l.any (fun q => q.1 = k) <;> simp [ha, hp]

theorem assocGet_map_set_ne (l : List (String × α)) (k k1 : String) (v : α)
    (h : ¬ k1 = k) :
    assocGet (l.map (fun p => if p.1 = k then (p.1, v) else p)) k1
      = assocGet l k1 := by
  induction l with
  | nil => rfl
  | cons p rest ih =>
      have h3 : ¬ k = k1 := fun hh => h hh.symm
      by_cases hp : p.1 = k
      · have hne : ¬ p.1 = k1 := by rw [hp]; exact h3
        simp [assocGet_cons, hp, hne, ih, h3]
      · simp [assocGet_cons, hp, ih, h3]

theorem assocGet_assocSet (l : List (String × α)) (k k1 : String) (v : α) :
    assocGet (assocSet l k v) k1 = if k1 = k then some v else assocGet l k1 := by
  induction l with
  | nil =>
      by_cases h : k1 = k
      · simp [assocSet, assocGet, h]
      · have h3 : ¬ k = k1 := fun hh => h hh.symm
        simp [assocSet, assocGet, h, h3]
  | cons p rest ih =>
      by_cases hp : p.1 = k
      · have hset : assocSet (p :: rest) k v =
            (p.1, v) :: rest.map (fun q => if q.1 = k then (q.1, v) else q) := by
          simp [assocSet, hp]
        rw [hset, assocGet_cons]
        by_cases h1 : k1 = k
        · simp [hp, h1]
        · have hne : ¬ p.1 = k1 := by
            rw [hp]; exact fun hh => h1 hh.symm
          simp [hne, assocGet_map_set_ne rest k k1 v h1, assocGet_cons, h1]
      · rw [assocSet_cons_ne p rest k v hp, assocGet_cons]
        by_cases h1 : p.1 = k1
        · have h2 : ¬ k1 = k := fun hh => hp (h1.trans hh)
          simp [h1, h2, assocGet_cons]
        · simp [h1, ih, assocGet_cons]

theorem readLayer_eq_ok {s : Store} {name : String} {l : Layer} :
    readLayer s name = Except.ok l ↔ assocGet s name = some l := by
  unfold readLayer
  cases h : assocGet s name <;> simp

theorem readLayer_writeLayer (s : Store) (name n : String) (l : Layer) :
    readLayer (writeLayer s name l) n = if n = name then Except.ok l
      else readLayer s n := by
  unfold readLayer writeLayer
  rw [assocGet_assocSet]
  by_cases h : n = name <;> simp [h]

theorem exceptFilter_eq_filter (p : α → Except String Bool) (q : α → Bool)
    (l : List α) (h : ∀ a ∈ l, p a = Except.ok (q a)) :
    exceptFilter p l = Except.ok (l.filter q) := by
  induction l with
  | nil => rfl
  | cons a as ih =>
      have ha := h a (List.mem_cons_self a as)
      have ih2 := ih (fun b hb => h b (List.mem_cons_of_mem a hb))
      by_cases hq : q a = true <;>
        simp [exceptFilter, ha, ih2, List.filter_cons, hq, bind, Except.bind,
          pure, Except.pure]

/-! ## Concrete test fixtures (shared across the claim witnesses) -/

def vkTestColumns : List String :=
  ["objekt_id", "cvr_kode", "oprettet", "temakode", "navn", "geometry"]

/-- A VK record with the attributes the sync pipeline consumes. -/
def mkVkRecord (oid : Value) (cvr : Int) (t : PyDT) (tk : Int) (g : Geom) :
    PyRecord :=
  [("objekt_id", oid), ("cvr_kode", Value.vInt cvr), ("oprettet", Value.vTime t),
   ("temakode", Value.vInt tk), ("navn", Value.vStr "Test Object"),
   ("geometry", Value.vGeom g)]

def geofaTestColumns : List String :=
  ["objekt_id", "temakode", "temanavn", "navn", "geometry"]

/-- A GeoFA store holding the three (initially empty) target layers. -/
def geofaTestStore : Store :=
  [("5800_fac_pkt", ⟨geofaTestColumns, []⟩),
   ("5801_fac_fl", ⟨geofaTestColumns, []⟩),
   ("5802_fac_li", ⟨geofaTestColumns, []⟩)]

/-- A VK store with a single unsynced point record. -/
def vkOneRecordStore : Store :=
  [("GeoFA_5800_fac_pkt",
      ⟨vkTestColumns,
        [mkVkRecord Value.vNull 29189900 (make_datetime 2024 6 15) 5800
          ⟨"Point", 1⟩]⟩),
   ("GeoFA_5801_fac_fl", ⟨vkTestColumns, []⟩),
   ("GeoFA_5802_fac_li", ⟨vkTestColumns, []⟩)]

/-! ## Claim C9 -/

/-- C9: for every geometry whose `geom_type` is not one of the six
supported ones, `create_object` fails with a `ValueError` naming the
unsupported type.  The conclusion holds for every store, identically, so
the failure precedes any layer read or write and no store content can
change (a failing call returns no store at all). -/
theorem create_object_unsupported_geometry (geofa : Store) (u : String)
    (temakode : Int) (g : Geom)
    (h1 : ¬ g.geom_type = "Point") (h2 : ¬ g.geom_type = "MultiPoint")
    (h3 : ¬ g.geom_type = "Polygon") (h4 : ¬ g.geom_type = "MultiPolygon")
    (h5 : ¬ g.geom_type = "LineString") (h6 : ¬ g.geom_type = "MultiLineString") :
    create_object geofa u temakode g =
      Except.error ("ValueError: Unsupported geometry type: " ++ g.geom_type) := by
  unfold create_object infer_layer_from_geometry
  simp [h1, h2, h3, h4, h5, h6, bind, Except.bind]

/-- C9 witness: a `GeometryCollection` on the empty store is rejected by
name. -/
theorem create_object_unsupported_geometry_witness :
    create_object [] "u1" 5800 ⟨"GeometryCollection", 0⟩ =
      Except.error "ValueError: Unsupported geometry type: GeometryCollection" :=
  create_object_unsupported_geometry [] "u1" 5800 ⟨"GeometryCollection", 0⟩
    (by decide) (by decide) (by decide) (by decide) (by decide) (by decide)

/-! ## Claim C3 -/

/-- C3: a successful `create_object` picks its target layer solely from
the geometry's shape — point shapes land in `5800_fac_pkt`, polygon
shapes in `5801_fac_fl`, line shapes in `5802_fac_li` — while the
`temakode` argument is arbitrary; every other layer is untouched and
the target layer receives the new record. -/
theorem create_object_layer_routing (temakode : Int) (g : Geom)
    (geofa geofa1 : Store) (u newId : String)
    (hok : create_object geofa u temakode g = Except.ok (geofa1, newId)) :
    ∃ target : String,
      infer_layer_from_geometry g = Except.ok target ∧
      ((g.geom_type = "Point" ∨ g.geom_type = "MultiPoint") →
        target = "5800_fac_pkt") ∧
      ((g.geom_type = "Polygon" ∨ g.geom_type = "MultiPolygon") →
        target = "5801_fac_fl") ∧
      ((g.geom_type = "LineString" ∨ g.geom_type = "MultiLineString") →
        target = "5802_fac_li") ∧
      (∀ n, ¬ n = target → readLayer geofa1 n = readLayer geofa n) ∧
      (∃ l, readLayer geofa target = Except.ok l ∧
        readLayer geofa1 target = Except.ok
          { l with records := l.records ++ [newGeofaRow l.columns u temakode g] }) := by
  cases hinf : infer_layer_from_geometry g with
  | error e =>
      rw [create_object, hinf] at hok
      simp [bind, Except.bind] at hok
  | ok target =>
      refine ⟨target, rfl, ?_, ?_, ?_, ?_, ?_⟩
      · intro hsh
        rw [infer_layer_from_geometry] at hinf
        simp [hsh] at hinf
        exact hinf.symm
      · intro hsh
        rw [infer_layer_from_geometry] at hinf
        rcases hsh with h | h <;> simp [h] at hinf <;> exact hinf.symm
      · intro hsh
        rw [infer_layer_from_geometry] at hinf
        rcases hsh with h | h <;> simp [h] at hinf <;> exact hinf.symm
      · intro n hn
        rw [create_object, hinf] at hok
        cases hread : readLayer geofa target with
        | error e => simp [hread, bind, Except.bind] at hok
        | ok l =>
            simp [hread, bind, Except.bind, pure, Except.pure] at hok
            rw [← hok.1, readLayer_writeLayer]
            simp [hn]
      · rw [create_object, hinf] at hok
        cases hread : readLayer geofa target with
        | error e => simp [hread, bind, Except.bind] at hok
        | ok l =>
            simp [hread, bind, Except.bind, pure, Except.pure] at hok
            refine ⟨l, rfl, ?_⟩
            rw [← hok.1, readLayer_writeLayer]
            simp

/-- C3 witness: creating a `Point` while passing the polygon-ish code
9999 still lands in the point layer. -/
theorem create_object_layer_routing_witness :
    ∃ target : String,
      infer_layer_from_geometry ⟨"Point", 7⟩ = Except.ok target ∧
      target = "5800_fac_pkt" := by
  obtain ⟨t, h1, h2, -, -, -, -⟩ :=
    create_object_layer_routing 9999 ⟨"Point", 7⟩ geofaTestStore
      (writeLayer geofaTestStore "5800_fac_pkt"
        ⟨geofaTestColumns, [newGeofaRow geofaTestColumns "u1" 9999 ⟨"Point", 7⟩]⟩)
      "u1" "u1" rfl
  exact ⟨t, h1, h2 (Or.inl rfl)⟩

/-! ## Claim C4 -/

/-- The boolean row predicate agrees with its logical description. -/
theorem needsSyncRow_iff (r : PyRecord) :
    needsSyncRow r = true ↔
      (dictGet r "objekt_id" = some Value.vNull ∨
        ∃ s, dictGet r "objekt_id" = some (Value.vStr s) ∧ pyStrip s = "") := by
  unfold needsSyncRow
  cases h : dictGet r "objekt_id" with
  | none => simp [h]
  | some v => cases v <;> simp [h]

/-- C4: the unsynced filter retains exactly the records whose
`objekt_id` is null or strips to the empty string (so null, `""` and
`"   "` are retained), and excludes every record whose `objekt_id`
carries any non-whitespace character (or a non-string value). -/
theorem filter_objects_without_id_spec (records : List PyRecord) (r : PyRecord) :
    r ∈ filter_objects_without_id records ↔
      r ∈ records ∧
        (dictGet r "objekt_id" = some Value.vNull ∨
          ∃ s, dictGet r "objekt_id" = some (Value.vStr s) ∧ pyStrip s = "") := by
  unfold filter_objects_without_id
  rw [List.mem_filter, needsSyncRow_iff]

/-! ## Claim C2 -/

/-- C2 counterexample: on a layer with one record (valid FIDs `{0}`),
patching FID 5 raises a `ValueError` (modelled by `Except.error`); the
operation does not return normally with a failure flag — its Python
return type is `None` and the `except` clause re-raises. -/
theorem update_objekt_id_raises_cex :
    update_objekt_id vkOneRecordStore "GeoFA_5800_fac_pkt" 5 "new-id" =
      Except.error
        "ValueError: FID 5 not found in layer GeoFA_5800_fac_pkt. Valid range: 0 to 0" := by
  rfl

/-- C2 amended: for a FID outside the layer's current index range,
`update_objekt_id` raises a `ValueError` naming the FID, the layer and
the valid range; the raise happens before the write, so no store is
produced and the layer is untouched. -/
theorem update_objekt_id_raises (vk : Store) (layer_name : String) (fid : Nat)
    (newId : String) (gdf : Layer)
    (hread : readLayer vk layer_name = Except.ok gdf)
    (hfid : gdf.records.length ≤ fid) :
    update_objekt_id vk layer_name fid newId =
      Except.error ("ValueError: FID " ++ toString fid ++ " not found in layer "
        ++ layer_name ++ ". Valid range: 0 to "
        ++ toString (gdf.records.length - 1)) := by
  unfold update_objekt_id
  rw [hread]
  simp [bind, Except.bind]
  intro h
  exact absurd h (by omega)

/-- C2 amended witness: the out-of-range patch on the concrete store. -/
theorem update_objekt_id_raises_witness :
    update_objekt_id vkOneRecordStore "GeoFA_5800_fac_pkt" 7 "new-id" =
      Except.error
        "ValueError: FID 7 not found in layer GeoFA_5800_fac_pkt. Valid range: 0 to 0" :=
  update_objekt_id_raises vkOneRecordStore "GeoFA_5800_fac_pkt" 7 "new-id"
    ⟨vkTestColumns,
      [mkVkRecord Value.vNull 29189900 (make_datetime 2024 6 15) 5800 ⟨"Point", 1⟩]⟩
    rfl (by decide)

/-! ## Claim C8 -/

/-- C8: when the source geodatabase path does not exist, `run_clone`
stops at once with only the warning: the world (destination container
included) is returned untouched, no destination delete, no schema read
and no layer clone appears in the action trace. -/
theorem run_clone_missing_gdb (cfg : ClonerConfig) (w : CloneWorld)
    (h : cfg.gdb_path ∉ w.paths) :
    run_clone cfg w = (w, [CloneAction.warnMissingGdb]) := by
  unfold run_clone
  simp [h]

/-- A world with an existing destination container and schema file but
no source geodatabase. -/
def cloneTestWorld : CloneWorld :=
  { paths := ["out.gpkg", "schema1.json"],
    schemas := [("schema1.json", "ns.tbl")],
    gdb_layers := [("tbl", ⟨["c"], []⟩)],
    dest := [("old", ⟨["c"], []⟩)] }

/-- C8 witness: with the destination present and the geodatabase absent,
the run only warns and the destination survives. -/
theorem run_clone_missing_gdb_witness :
    run_clone ⟨["schema1.json"], "my.gdb", "out.gpkg"⟩ cloneTestWorld =
      (cloneTestWorld, [CloneAction.warnMissingGdb]) :=
  run_clone_missing_gdb ⟨["schema1.json"], "my.gdb", "out.gpkg"⟩ cloneTestWorld
    (by decide)

/-! ## Claim C6 -/

theorem assocGet_const_map (columns : List String) (c : String) (v : α)
    (hc : c ∈ columns) :
    assocGet (columns.map (fun n => (n, v))) c = some v := by
  induction columns with
  | nil => cases hc
  | cons d rest ih =>
      by_cases hd : d = c
      · simp [assocGet_cons, hd]
      · rcases List.mem_cons.mp hc with hc1 | hc1
        · exact absurd hc1.symm hd
        · simp [assocGet_cons, hd, ih hc1]

/-- C6: a successful `create_object` appends exactly one record to the
routed target layer — the target keeps its old records as a prefix and
gains one, every other layer is byte-identical — and in the new record
`objekt_id` is the generated identifier, `temakode` is the code exactly
as the caller passed it, `geometry` is the given geometry, `temanavn`
comes from the fixed code-to-name table (null outside it), and every
other schema column is null. -/
theorem create_object_new_record (temakode : Int) (g : Geom)
    (geofa geofa1 : Store) (u newId : String)
    (hok : create_object geofa u temakode g = Except.ok (geofa1, newId)) :
    newId = u ∧
    ∃ target l,
      infer_layer_from_geometry g = Except.ok target ∧
      readLayer geofa target = Except.ok l ∧
      readLayer geofa1 target = Except.ok
        { l with records := l.records ++ [newGeofaRow l.columns u temakode g] } ∧
      (∀ n, ¬ n = target → readLayer geofa1 n = readLayer geofa n) ∧
      dictGet (newGeofaRow l.columns u temakode g) "objekt_id"
        = some (Value.vStr u) ∧
      dictGet (newGeofaRow l.columns u temakode g) "temakode"
        = some (Value.vInt temakode) ∧
      dictGet (newGeofaRow l.columns u temakode g) "geometry"
        = some (Value.vGeom g) ∧
      dictGet (newGeofaRow l.columns u temakode g) "temanavn"
        = some (match temanavn_map temakode with
            | some n => Value.vStr n
            | none => Value.vNull) ∧
      (∀ c ∈ l.columns, ¬ c = "objekt_id" → ¬ c = "temakode" →
        ¬ c = "geometry" → ¬ c = "temanavn" →
        dictGet (newGeofaRow l.columns u temakode g) c = some Value.vNull) := by
  cases hinf : infer_layer_from_geometry g with
  | error e =>
      rw [create_object, hinf] at hok
      simp [bind, Except.bind] at hok
  | ok target =>
      rw [create_object, hinf] at hok
      cases hread : readLayer geofa target with
      | error e => simp [hread, bind, Except.bind] at hok
      | ok l =>
          simp [hread, bind, Except.bind, pure, Except.pure] at hok
          refine ⟨hok.2.symm, target, l, rfl, by rw [hread], ?_, ?_,
            ?_, ?_, ?_, ?_, ?_⟩
          · rw [← hok.1, readLayer_writeLayer]
            simp
          · intro n hn
            rw [← hok.1, readLayer_writeLayer]
            simp [hn]
          · simp [newGeofaRow, dictGet, dictSet, assocGet_assocSet]
          · simp [newGeofaRow, dictGet, dictSet, assocGet_assocSet]
          · simp [newGeofaRow, dictGet, dictSet, assocGet_assocSet]
          · simp [newGeofaRow, dictGet, dictSet, assocGet_assocSet]
          · intro c hc h1 h2 h3 h4
            simp only [newGeofaRow, dictGet, dictSet, assocGet_assocSet,
              h1, h2, h3, h4, if_false]
            exact assocGet_const_map l.columns c Value.vNull hc

/-- C6 witness: creating a point with code 5800 in the concrete GeoFA
store; the new row's `temanavn` comes from the fixed table. -/
theorem create_object_new_record_witness :
    ∃ target l,
      infer_layer_from_geometry ⟨"Point", 1⟩ = Except.ok target ∧
      readLayer geofaTestStore target = Except.ok l ∧
      dictGet (newGeofaRow l.columns "u1" 5800 ⟨"Point", 1⟩) "temanavn"
        = some (Value.vStr "t_5800_fac_pkt_t") := by
  obtain ⟨-, target, l, h1, h2, -, -, -, -, -, h3, -⟩ :=
    create_object_new_record 5800 ⟨"Point", 1⟩ geofaTestStore
      (writeLayer geofaTestStore "5800_fac_pkt"
        ⟨geofaTestColumns, [newGeofaRow geofaTestColumns "u1" 5800 ⟨"Point", 1⟩]⟩)
      "u1" "u1" rfl
  exact ⟨target, l, h1, h2, h3⟩

/-! ## Claim C1 -/

/-- With a timezone-aware `oprettet` value and normalized bounds, the
per-record condition of the end-given branch evaluates without raising
to: in-range on `oprettet` AND `cvr_kode == 29189900`. -/
theorem recordInDateRange_aware (start e : PyDT) (r : PyRecord) (t : PyDT)
    (ht : dictGet r "oprettet" = some (Value.vTime t)) (haware : t.tz.isSome) :
    recordInDateRange (normalizeBound start) (some (normalizeBound e)) r =
      Except.ok ((decide ((normalizeBound start).absKey ≤ t.absKey)
        && decide (t.absKey ≤ (normalizeBound e).absKey))
        && decide (dictGet r "cvr_kode" = some (Value.vInt 29189900))) := by
  unfold recordInDateRange
  rw [ht]
  obtain ⟨off, hoff⟩ := Option.isSome_iff_exists.mp haware
  simp [pyLe, normalizeBound, make_datetime, hoff, bind, Except.bind, pure,
    Except.pure]

/-- A record of a concrete singleton layer whose `oprettet` equals the
`start` bound but whose `cvr_kode` is not 29189900. -/
def vkWrongCvrStore : Store :=
  [("GeoFA_5800_fac_pkt",
      ⟨vkTestColumns,
        [mkVkRecord Value.vNull 0 (make_datetime 2024 6 1) 5800 ⟨"Point", 1⟩]⟩)]

/-- C1 counterexample: the record's `oprettet` equals `start` (both
comparisons hold), yet `get_objects_by_date(start, end)` returns it in
no layer, because the end-given branch also requires
`cvr_kode == 29189900` (src/sync/vk.py line 186) — contradicting "with
no condition on any other attribute of the record". -/
theorem get_objects_by_date_cvr_cex :
    pyLe (normalizeBound (make_datetime 2024 6 1)) (make_datetime 2024 6 1)
        = Except.ok true ∧
    pyLe (make_datetime 2024 6 1) (normalizeBound (make_datetime 2024 6 30))
        = Except.ok true ∧
    get_objects_by_date vkWrongCvrStore (make_datetime 2024 6 1)
        (some (make_datetime 2024 6 30)) (some "GeoFA_5800_fac_pkt")
      = Except.ok [] := by
  refine ⟨rfl, rfl, rfl⟩

/-- C1 amended: for a scanned layer whose records carry timezone-aware
`oprettet` timestamps, a record is returned by
`get_objects_by_date(start, end)` with `end` given exactly when its
`oprettet` lies in the inclusive normalized range AND its `cvr_kode`
equals 29189900.  In particular `oprettet == start` and
`oprettet == end` are included and any later timestamp is excluded —
for records with `cvr_kode == 29189900`. -/
theorem get_objects_by_date_range_cvr (vk : Store) (n : String) (l : Layer)
    (start e : PyDT)
    (hlayer : readLayer vk n = Except.ok l)
    (hcols : "oprettet" ∈ l.columns)
    (haware : ∀ r ∈ l.records, ∃ t, dictGet r "oprettet"
        = some (Value.vTime t) ∧ t.tz.isSome) :
    ∃ out, get_objects_by_date vk start (some e) (some n) = Except.ok out ∧
      ∀ r ∈ l.records, ∀ t, dictGet r "oprettet" = some (Value.vTime t) →
        (r ∈ out ↔
          ((normalizeBound start).absKey ≤ t.absKey ∧
           t.absKey ≤ (normalizeBound e).absKey ∧
           dictGet r "cvr_kode" = some (Value.vInt 29189900))) := by
  have hfil : exceptFilter
      (recordInDateRange (normalizeBound start) (some (normalizeBound e)))
      l.records = Except.ok (l.records.filter (fun r =>
        match dictGet r "oprettet" with
        | some (Value.vTime t) =>
            (decide ((normalizeBound start).absKey ≤ t.absKey)
              && decide (t.absKey ≤ (normalizeBound e).absKey))
              && decide (dictGet r "cvr_kode" = some (Value.vInt 29189900))
        | _ => false)) := by
    apply exceptFilter_eq_filter
    intro r hr
    obtain ⟨t, ht, htz⟩ := haware r hr
    rw [recordInDateRange_aware start e r t ht htz, ht]
  have hscan : get_objects_by_date vk start (some e) (some n)
      = Except.ok (l.records.filter (fun r =>
          match dictGet r "oprettet" with
          | some (Value.vTime t) =>
              (decide ((normalizeBound start).absKey ≤ t.absKey)
                && decide (t.absKey ≤ (normalizeBound e).absKey))
                && decide (dictGet r "cvr_kode"
                    = some (Value.vInt 29189900))
          | _ => false)) := by
    show scanLayers vk (normalizeBound start) (some (normalizeBound e)) [n]
      = _
    unfold scanLayers
    rw [hlayer]
    simp [layerDateFilter, hcols, hfil, scanLayers, bind, Except.bind, pure,
      Except.pure]
  refine ⟨_, hscan, ?_⟩
  intro r hr t ht
  rw [List.mem_filter]
  simp only [ht]
  constructor
  · rintro ⟨-, hb⟩
    simp only [Bool.and_eq_true, decide_eq_true_eq] at hb
    exact ⟨hb.1.1, hb.1.2, hb.2⟩
  · rintro ⟨h1, h2, h3⟩
    exact ⟨hr, by simp [h1, h2, h3]⟩

/-- C1 amended witness: in the singleton store whose record has
`cvr_kode == 29189900` and `oprettet` strictly inside the window, the
record is returned. -/
theorem get_objects_by_date_range_cvr_witness :
    ∃ out, get_objects_by_date vkOneRecordStore (make_datetime 2024 6 1)
        (some (make_datetime 2024 6 30)) (some "GeoFA_5800_fac_pkt")
      = Except.ok out ∧
      mkVkRecord Value.vNull 29189900 (make_datetime 2024 6 15) 5800
        ⟨"Point", 1⟩ ∈ out := by
  obtain ⟨out, hout, hmem⟩ :=
    get_objects_by_date_range_cvr vkOneRecordStore "GeoFA_5800_fac_pkt"
      ⟨vkTestColumns,
        [mkVkRecord Value.vNull 29189900 (make_datetime 2024 6 15) 5800
          ⟨"Point", 1⟩]⟩
      (make_datetime 2024 6 1) (make_datetime 2024 6 30)
      rfl (by decide)
      (by
        intro r hr
        rw [List.mem_singleton] at hr
        subst hr
        exact ⟨make_datetime 2024 6 15, rfl, rfl⟩)
  refine ⟨out, hout, ?_⟩
  exact (hmem _ (List.mem_singleton.mpr rfl) (make_datetime 2024 6 15) rfl).mpr
    ⟨by decide, by decide, rfl⟩

/-! ## Claim C7 -/

/-- C7: the bounds of `get_objects_by_date` are normalized before any
comparison: a timezone-naive bound is rebuilt as a UTC-aware datetime
from its six calendar fields (microsecond dropped); a normalized bound
compares against any timezone-aware timestamp without raising, in both
directions; and the whole query depends on the bounds only through
their normalization. -/
theorem get_objects_by_date_normalizes (d : PyDT) :
    (d.tz = none →
      normalizeBound d =
        (⟨d.year, d.month, d.day, d.hour, d.minute, d.second, 0, some 0⟩ :
          PyDT)) ∧
    (∀ t : PyDT, t.tz.isSome →
      pyLe (normalizeBound d) t
          = Except.ok (decide ((normalizeBound d).absKey ≤ t.absKey)) ∧
      pyLe t (normalizeBound d)
          = Except.ok (decide (t.absKey ≤ (normalizeBound d).absKey))) ∧
    (∀ (vk : Store) (endOpt : Option PyDT) (ln : Option String),
      get_objects_by_date vk d endOpt ln =
        get_objects_by_date vk (normalizeBound d) (endOpt.map normalizeBound)
          ln) := by
  refine ⟨fun _ => rfl, ?_, ?_⟩
  · intro t htz
    obtain ⟨off, hoff⟩ := Option.isSome_iff_exists.mp htz
    constructor <;> simp [pyLe, normalizeBound, make_datetime, hoff]
  · intro vk endOpt ln
    cases endOpt <;> cases ln <;> rfl

/-- C7 witness: a naive bound with a nonzero microsecond is rebuilt as
UTC from its six fields, and compares fine against an aware
timestamp. -/
theorem get_objects_by_date_normalizes_witness :
    normalizeBound ⟨2024, 6, 1, 12, 30, 15, 999999, none⟩ =
      (⟨2024, 6, 1, 12, 30, 15, 0, some 0⟩ : PyDT) ∧
    pyLe (normalizeBound ⟨2024, 6, 1, 12, 30, 15, 999999, none⟩)
        (make_datetime 2024 7 1)
      = Except.ok (decide
          ((normalizeBound ⟨2024, 6, 1, 12, 30, 15, 999999, none⟩).absKey
            ≤ (make_datetime 2024 7 1).absKey)) :=
  ⟨(get_objects_by_date_normalizes ⟨2024, 6, 1, 12, 30, 15, 999999, none⟩).1 rfl,
   ((get_objects_by_date_normalizes ⟨2024, 6, 1, 12, 30, 15, 999999, none⟩).2.1
      (make_datetime 2024 7 1) rfl).1⟩

/-! ## Claims C5 and C10: orchestrator counting -/

/-- Whether one patch-back would succeed against a given store: the
layer exists and the FID lies inside its index range.  This depends
only on layer record counts. -/
def patchOk (vk : Store) (e : SyncEntry) : Bool :=
  match assocGet vk e.layer_name with
  | some l => e.fid < l.records.length
  | none => false

/-- A successful patch preserves every layer's record count. -/
theorem update_objekt_id_ok_layerLen {vk vk1 : Store} {n : String} {fid : Nat}
    {id : String} (h : update_objekt_id vk n fid id = Except.ok vk1) (m : String) :
    (assocGet vk1 m).map (fun l => l.records.length)
      = (assocGet vk m).map (fun l => l.records.length) := by
  unfold update_objekt_id at h
  cases hread : readLayer vk n with
  | error e => rw [hread] at h; simp [bind, Except.bind] at h
  | ok gdf =>
      rw [hread] at h
      by_cases hf : fid < gdf.records.length
      · simp [bind, Except.bind, hf, pure, Except.pure] at h
        rw [← h]
        unfold writeLayer
        rw [assocGet_assocSet]
        by_cases hm : m = n
        · subst hm
          rw [readLayer_eq_ok] at hread
          rw [hread]
          simp
        · simp [hm]
      · simp [bind, Except.bind, hf] at h

/-- A successful patch does not change which later patches would
succeed. -/
theorem update_objekt_id_ok_patchOk {vk vk1 : Store} {n : String} {fid : Nat}
    {id : String} (h : update_objekt_id vk n fid id = Except.ok vk1)
    (e : SyncEntry) : patchOk vk1 e = patchOk vk e := by
  have hlen := update_objekt_id_ok_layerLen h e.layer_name
  unfold patchOk
  cases h1 : assocGet vk1 e.layer_name with
  | none =>
      rw [h1] at hlen
      cases h2 : assocGet vk e.layer_name with
      | none => rfl
      | some l2 => rw [h2] at hlen; simp at hlen
  | some l1 =>
      rw [h1] at hlen
      cases h2 : assocGet vk e.layer_name with
      | none => rw [h2] at hlen; simp at hlen
      | some l2 =>
          rw [h2] at hlen
          simp at hlen
          simp [hlen]

/-- `update_objekt_id` succeeds exactly when the layer exists and the
FID is in range. -/
theorem update_objekt_id_isOk (vk : Store) (e : SyncEntry) :
    (∃ vk1, update_objekt_id vk e.layer_name e.fid e.new_objekt_id
        = Except.ok vk1) ↔ patchOk vk e = true := by
  unfold update_objekt_id patchOk readLayer
  cases hg : assocGet vk e.layer_name with
  | none => simp [bind, Except.bind]
  | some gdf =>
      by_cases hf : e.fid < gdf.records.length <;>
        simp [bind, Except.bind, hf, pure, Except.pure]

/-- The success/failure counters of the patch-back loop: each entry is
counted by its own `patchOk` outcome against the initial store — one
entry's failure cannot influence another entry's count. -/
theorem update_vk_counts (entries : List SyncEntry) (vk : Store) :
    (update_vk_with_geofa_ids vk entries).2.1
        = (entries.filter (fun e => patchOk vk e)).length ∧
    (update_vk_with_geofa_ids vk entries).2.2
        = (entries.filter (fun e => ! patchOk vk e)).length := by
  induction entries generalizing vk with
  | nil => simp [update_vk_with_geofa_ids]
  | cons e rest ih =>
      unfold update_vk_with_geofa_ids
      cases hu : update_objekt_id vk e.layer_name e.fid e.new_objekt_id with
      | ok vk1 =>
          have hok : patchOk vk e = true :=
            (update_objekt_id_isOk vk e).mp ⟨vk1, hu⟩
          have hpres : ∀ e2 ∈ rest, patchOk vk1 e2 = patchOk vk e2 :=
            fun e2 _ => update_objekt_id_ok_patchOk hu e2
          obtain ⟨ihs, ihf⟩ := ih vk1
          have hfe : rest.filter (fun e2 => patchOk vk1 e2)
              = rest.filter (fun e2 => patchOk vk e2) :=
            List.filter_congr hpres
          have hff : rest.filter (fun e2 => ! patchOk vk1 e2)
              = rest.filter (fun e2 => ! patchOk vk e2) :=
            List.filter_congr (fun e2 h2 => by rw [hpres e2 h2])
          constructor
          · simp [List.filter_cons, hok, ihs, hfe]
          · simp [List.filter_cons, hok, ihf, hff]
      | error msg =>
          have hbad : patchOk vk e = false := by
            cases hp : patchOk vk e
            · rfl
            · obtain ⟨vk2, h2⟩ := (update_objekt_id_isOk vk e).mpr hp
              rw [h2] at hu
              cases hu
          obtain ⟨ihs, ihf⟩ := ih vk
          constructor
          · simp [List.filter_cons, hbad, ihs]
          · simp [List.filter_cons, hbad, ihf]

/-- Filtering the enumerated list by a predicate on the element keeps
as many entries as filtering the list itself. -/
theorem enumFrom_filter_snd_length (p : α → Bool) (l : List α) (n : Nat) :
    ((l.enumFrom n).filter (fun x => p x.2)).length = (l.filter p).length := by
  induction l generalizing n with
  | nil => rfl
  | cons a as ih =>
      by_cases hp : p a <;>
        simp [List.enumFrom, List.filter_cons, hp, ih]

theorem enum_filter_snd_length (p : α → Bool) (l : List α) :
    ((l.enum).filter (fun x => p x.2)).length = (l.filter p).length :=
  enumFrom_filter_snd_length p l 0

/-- C5: whenever `sync_new_objects` returns a result, `newly_synced`
counts exactly the per-entry patch-back successes and `errors` exactly
the per-entry patch-back failures — each entry judged on its own
against the initial store, so one entry's failure never affects
another's count and the two add up to the whole patched batch
(creation-step failures only shrink `sync_details` and touch neither
counter) — while `already_synced` is the fetched total minus the number
of unsynced records. -/
theorem sync_new_objects_counters (vk geofa : Store) (uuids : List String)
    (since : Option PyDT) (res : SyncResult) (vk1 geofa1 : Store)
    (hrun : sync_new_objects vk geofa uuids since
        = Except.ok (res, vk1, geofa1)) :
    ∃ objs, get_objects_by_date vk (syncStartDate since) none none
        = Except.ok objs ∧
      res.total_objects = objs.length ∧
      res.already_synced = objs.length - (objs.filter needsSyncRow).length ∧
      res.newly_synced
          = (res.sync_details.filter (fun e => patchOk vk e)).length ∧
      res.errors
          = (res.sync_details.filter (fun e => ! patchOk vk e)).length ∧
      res.newly_synced + res.errors = res.sync_details.length := by
  unfold sync_new_objects at hrun
  cases hget : get_objects_by_date vk (syncStartDate since) none none with
  | error e =>
      rw [hget] at hrun
      simp [bind, Except.bind] at hrun
  | ok objs =>
      rw [hget] at hrun
      refine ⟨objs, rfl, ?_⟩
      simp only [bind, Except.bind] at hrun
      by_cases hlen : objs.length = 0
      · simp only [hlen, if_true, pure, Except.pure, if_pos] at hrun
        rw [Except.ok.injEq, Prod.mk.injEq, Prod.mk.injEq] at hrun
        obtain ⟨hres, -, -⟩ := hrun
        rw [← hres]
        simp [hlen]
      · simp only [hlen, if_false, if_neg] at hrun
        by_cases hns :
            (objs.enum.filter (fun p => needsSyncRow p.2)).length = 0
        · simp only [hns, if_true, pure, Except.pure, if_pos] at hrun
          rw [Except.ok.injEq, Prod.mk.injEq, Prod.mk.injEq] at hrun
          obtain ⟨hres, -, -⟩ := hrun
          rw [← hres]
          have h0 : (objs.filter needsSyncRow).length = 0 :=
            (enum_filter_snd_length needsSyncRow objs).symm.trans hns
          simp [h0]
        · simp only [hns, if_false, if_neg] at hrun
          rcases hcre : create_objects_in_geofa geofa uuids
              (objs.enum.filter (fun p => needsSyncRow p.2))
            with ⟨g1, us, details⟩
          rw [hcre] at hrun
          rcases hupd : update_vk_with_geofa_ids vk details with ⟨vk2, s, f⟩
          rw [hupd] at hrun
          simp only [pure, Except.pure] at hrun
          rw [Except.ok.injEq, Prod.mk.injEq, Prod.mk.injEq] at hrun
          obtain ⟨hres, -, -⟩ := hrun
          rw [← hres]
          obtain ⟨hcs, hcf⟩ := update_vk_counts details vk
          rw [hupd] at hcs hcf
          simp only at hcs hcf
          refine ⟨rfl, ?_, hcs, hcf, ?_⟩
          · simp [enum_filter_snd_length]
          · rw [hcs, hcf]
            exact (List.length_eq_length_filter_add
              (fun e => patchOk vk e)).symm

/-- A VK store with two unsynced records in different layers; because
the orchestrator re-indexes the concatenated fetch, the second record's
patch-back targets FID 1 of a one-record layer and fails, while the
first succeeds. -/
def vkTwoUnsyncedStore : Store :=
  [("GeoFA_5800_fac_pkt",
      ⟨vkTestColumns,
        [mkVkRecord Value.vNull 29189900 (make_datetime 2024 6 15) 5800
          ⟨"Point", 1⟩]⟩),
   ("GeoFA_5801_fac_fl",
      ⟨vkTestColumns,
        [mkVkRecord (Value.vStr "") 29189900 (make_datetime 2024 6 16) 5801
          ⟨"Polygon", 2⟩]⟩),
   ("GeoFA_5802_fac_li", ⟨vkTestColumns, []⟩)]

/-- C5 witness: a concrete run in which one patch-back succeeds and one
fails; the counters reflect each entry separately. -/
theorem sync_new_objects_counters_witness :
    ∃ (res : SyncResult) (vk1 geofa1 : Store),
      sync_new_objects vkTwoUnsyncedStore geofaTestStore ["u1", "u2"]
          (some (make_datetime 2024 6 1)) = Except.ok (res, vk1, geofa1) ∧
      res.newly_synced
          = (res.sync_details.filter
              (fun e => patchOk vkTwoUnsyncedStore e)).length ∧
      res.errors
          = (res.sync_details.filter
              (fun e => ! patchOk vkTwoUnsyncedStore e)).length ∧
      res.newly_synced = 1 ∧ res.errors = 1 := by
  obtain ⟨objs, -, -, -, hn, he, -⟩ :=
    sync_new_objects_counters vkTwoUnsyncedStore geofaTestStore ["u1", "u2"]
      (some (make_datetime 2024 6 1)) _ _ _ rfl
  exact ⟨_, _, _, rfl, hn, he, rfl, rfl⟩

/-! ## Claim C10 -/

/-- C10: when the date fetch returns no records, or every fetched
record fails the unsynced test (non-blank `objekt_id`), the run returns
early with `newly_synced = 0`, `errors = 0` and an empty `sync_details`
list, and both stores come back exactly as they went in — no
`create_object` and no `update_objekt_id` is performed. -/
theorem sync_new_objects_early_return (vk geofa : Store) (uuids : List String)
    (since : Option PyDT) (objs : List PyRecord)
    (hget : get_objects_by_date vk (syncStartDate since) none none
        = Except.ok objs)
    (hnone : ∀ r ∈ objs, needsSyncRow r = false) :
    sync_new_objects vk geofa uuids since =
      Except.ok (⟨objs.length, objs.length, 0, 0, []⟩, vk, geofa) := by
  unfold sync_new_objects
  rw [hget]
  simp only [bind, Except.bind]
  have h0 : (objs.enum.filter (fun p => needsSyncRow p.2)).length = 0 := by
    rw [enum_filter_snd_length]
    rw [List.filter_eq_nil_iff.mpr (fun a ha => by simp [hnone a ha])]
    rfl
  by_cases hlen : objs.length = 0
  · simp only [hlen, if_true, if_pos, pure, Except.pure]
  · simp only [hlen, if_false, if_neg, h0, if_true, if_pos, pure, Except.pure]
    simp

/-- A VK store whose only record already carries a GeoFA identifier. -/
def vkAllSyncedStore : Store :=
  [("GeoFA_5800_fac_pkt",
      ⟨vkTestColumns,
        [mkVkRecord (Value.vStr "abc-123") 29189900 (make_datetime 2024 6 15)
          5800 ⟨"Point", 1⟩]⟩),
   ("GeoFA_5801_fac_fl", ⟨vkTestColumns, []⟩),
   ("GeoFA_5802_fac_li", ⟨vkTestColumns, []⟩)]

/-- C10 witness: with one already-synced record and no threshold date,
the run reports it as already synced, performs no write, and returns
both stores unchanged. -/
theorem sync_new_objects_early_return_witness :
    sync_new_objects vkAllSyncedStore geofaTestStore ["u1"] none =
      Except.ok (⟨1, 1, 0, 0, []⟩, vkAllSyncedStore, geofaTestStore) :=
  sync_new_objects_early_return vkAllSyncedStore geofaTestStore ["u1"] none
    [mkVkRecord (Value.vStr "abc-123") 29189900 (make_datetime 2024 6 15)
      5800 ⟨"Point", 1⟩]
    rfl (by decide)
